import Mathlib

/-
Verification of the Echo JS SDK session/canvas layer
(src/src/user-session.js: the `Echo.UserSession` singleton and the
`Echo.Canvas` bootstrap pipeline).

The embedding is shallow: JavaScript values are modelled by `JSVal`
(numbers are modelled as integers, which covers every numeric literal
appearing in this code), JS objects by association lists, and the
asynchronous session machinery by an explicit event-step function in
which network responses and cross-tab messages are delivered as events.
Object identity (reference equality) is not representable in a value
model, so `==`/`===` between two arrays or two objects is modelled as
`false`, which is what JS yields for distinct heap objects.
-/

namespace EchoSDK

/-- JavaScript values, as used by the session store. `num` carries an
integer: every number the SDK stores or compares here is integral. -/
inductive JSVal where
  | undefined
  | null
  | bool (b : Bool)
  | num (n : Int)
  | str (s : String)
  | arr (elems : List JSVal)
  | obj (fields : List (String × JSVal))
  deriving Repr

mutual

/-- ToString of a JS value (`String(v)`). -/
def jsToString : JSVal → String
  | .undefined => "undefined"
  | .null => "null"
  | .bool true => "true"
  | .bool false => "false"
  | .num n => toString n
  | .str s => s
  | .arr xs => String.intercalate "," (jsToStringElems xs)
  | .obj _ => "[object Object]"

/-- Elements under `Array.prototype.join`: null/undefined render empty. -/
def jsToStringElems : List JSVal → List String
  | [] => []
  | .undefined :: vs => "" :: jsToStringElems vs
  | .null :: vs => "" :: jsToStringElems vs
  | v :: vs => jsToString v :: jsToStringElems vs

end

/-- ToNumber on a string, restricted to integer syntax: the empty /
whitespace string converts to 0, an optionally signed digit string to
its value, anything else to NaN (`none`). -/
def strToNum (s : String) : Option Int :=
  let t := s.trim
  if t = "" then some 0
  else if t.toList.all Char.isDigit then some (t.toNat!)
  else if t.startsWith "-" ∧ (t.drop 1).toList.all Char.isDigit ∧ t.length > 1 then
    some (-(Int.ofNat (t.drop 1).toNat!))
  else none

/-- JS loose equality `==` over the modelled value universe.
Arrays/objects convert through ToPrimitive (their string form) when
compared with primitives; two distinct arrays/objects are never `==`. -/
def looseEq : JSVal → JSVal → Bool
  | .undefined, .undefined => true
  | .undefined, .null => true
  | .null, .undefined => true
  | .null, .null => true
  | .str a, .str b => a = b
  | .num a, .num b => a = b
  | .bool a, .bool b => a = b
  | .num a, .str s => strToNum s = some a
  | .str s, .num a => strToNum s = some a
  | .bool b, .num a => (if b then (1 : Int) else 0) = a
  | .num a, .bool b => (if b then (1 : Int) else 0) = a
  | .bool b, .str s => strToNum s = some (if b then 1 else 0)
  | .str s, .bool b => strToNum s = some (if b then 1 else 0)
  | .bool b, .arr xs => strToNum (jsToString (.arr xs)) = some (if b then 1 else 0)
  | .arr xs, .bool b => strToNum (jsToString (.arr xs)) = some (if b then 1 else 0)
  | .num a, .arr xs => strToNum (jsToString (.arr xs)) = some a
  | .arr xs, .num a => strToNum (jsToString (.arr xs)) = some a
  | .str s, .arr xs => jsToString (.arr xs) = s
  | .arr xs, .str s => jsToString (.arr xs) = s
  | .str s, .obj f => jsToString (.obj f) = s
  | .obj f, .str s => jsToString (.obj f) = s
  | _, _ => false

/-- `value == undefined` in JS is true exactly for undefined and null. -/
def looseEqUndefined : JSVal → Bool
  | .undefined => true
  | .null => true
  | _ => false

/-- JS strict equality `===`; distinct arrays/objects are never `===`. -/
def strictEq : JSVal → JSVal → Bool
  | .undefined, .undefined => true
  | .null, .null => true
  | .bool a, .bool b => a = b
  | .num a, .num b => a = b
  | .str a, .str b => a = b
  | _, _ => false

/-- JS truthiness; arrays and objects are always truthy. -/
def truthy : JSVal → Bool
  | .undefined => false
  | .null => false
  | .bool b => b
  | .num n => n ≠ 0
  | .str s => s ≠ ""
  | .arr _ => true
  | .obj _ => true

/-- Property read on a modelled JS object (association list); a missing
key reads as undefined. -/
def jsGet (o : List (String × JSVal)) (key : String) : JSVal :=
  match o.find? (fun p => p.1 = key) with
  | some p => p.2
  | none => .undefined

/-- Property read on an arbitrary JS value; only objects carry
(named) properties in this model. -/
def jsGetV : JSVal → String → JSVal
  | .obj fields, key => jsGet fields key
  | _, _ => .undefined

/-- An array value as a list, anything else as the empty list (the code
only ever iterates values that are arrays after normalization; the
source guards with `accounts || []` and the like). -/
def asArray : JSVal → List JSVal
  | .arr xs => xs
  | _ => []

/-- JS `a || b`. -/
def jsOr (a b : JSVal) : JSVal := if truthy a then a else b

def isStr : JSVal → Bool
  | .str _ => true
  | _ => false

def isArr : JSVal → Bool
  | .arr _ => true
  | _ => false

/-- `key.charAt(0).toUpperCase() + key.slice(1)`, the handler-name
derivation of `Echo.UserSession._maybeDelegate`. -/
def capitalize (s : String) : String :=
  match s.toList with
  | [] => ""
  | c :: cs => String.mk (c.toUpper :: cs)

/-- The user session store, as it stands once the session data has been
normalized (`Echo.UserSession._normalize` / `_reset`): `dataEcho` is
`user.data.echo`, `dataPoco` is `user.data.poco`, `dataIdentities` is
`user.data.identities`, `identity` is `user.identity` (absent before the
first reset, hence the `Option`), and `channelID` is what
`Backplane.getChannelID()` returns. -/
structure UserObj where
  dataEcho : List (String × JSVal)
  dataPoco : JSVal
  dataIdentities : JSVal
  identity : Option (List (String × JSVal))
  channelID : JSVal
  deriving Repr

/-- `Echo.UserSession._attrLocation`: the echo bucket for
roles/state/markers, the active-identity record otherwise.  `none`
means the location itself is undefined (reading through it would throw
in JS). -/
def attrLocation (u : UserObj) (key : String) : Option (List (String × JSVal)) :=
  if key = "roles" ∨ key = "state" ∨ key = "markers" then some u.dataEcho
  else u.identity

/-- The `get` fallback of `Echo.UserSession.get`: read the key at its
storage location and substitute the caller default when the stored value
`== undefined` (loose equality).  `none` models the TypeError raised
when the storage location itself is undefined. -/
def getFallback (u : UserObj) (key : String) (defaults : JSVal) : Option JSVal :=
  (attrLocation u key).map (fun loc =>
    let value := jsGet loc key
    if looseEqUndefined value then defaults else value)

/-- `Echo.UserSession._getActiveIdentities` (the write that caches the
result on the identity record is elided: recomputation returns the same
value, so the pure reading is observationally equal). -/
def getActiveIdentities (u : UserObj) : JSVal :=
  if ¬ truthy u.dataPoco ∨ ¬ truthy (jsGetV u.dataPoco "entry") then .undefined
  else
    let cached := match u.identity with
      | some idn => jsGet idn "activeIdentities"
      | none => .undefined
    if truthy cached then cached
    else .arr ((asArray (jsGetV (jsGetV u.dataPoco "entry") "accounts")).filter
      (fun entry => looseEq (jsGetV entry "loggedIn") (.str "true")))

/-- Modelled from the spec: `Echo.Utils.foldl` is not under src/; per
the spec the avatar is taken from the first photo record whose type is
"avatar". -/
def firstAvatarPhoto (photos : List JSVal) : JSVal :=
  match photos.find? (fun img => looseEq (jsGetV img "type") (.str "avatar")) with
  | some img => jsGetV img "value"
  | none => .undefined

/-- `Echo.UserSession._getAvatar` (cache write elided as above); `none`
models the TypeError when `user.identity` is undefined. -/
def getAvatar (u : UserObj) : Option JSVal :=
  u.identity.map (fun idn =>
    jsOr (jsGet idn "avatar") (firstAvatarPhoto (asArray (jsGet idn "photos"))))

/-- `Echo.UserSession._getName`. -/
def getName (u : UserObj) : JSVal :=
  match u.identity with
  | some idn => jsOr (jsGet idn "displayName") (jsGet idn "username")
  | none => .undefined

/-- `Echo.UserSession.get` through `_maybeDelegate`: a specialized
handler named `_get<CapitalizedKey>` wins, otherwise the fallback runs.
Note the caller default never reaches a specialized handler. -/
def getD (u : UserObj) (key : String) (defaults : JSVal) : Option JSVal :=
  let name := capitalize key
  if name = "ActiveIdentities" then some (getActiveIdentities u)
  else if name = "Avatar" then getAvatar u
  else if name = "Name" then some (getName u)
  else if name = "SessionID" then some u.channelID
  else getFallback u key defaults

/-- The `any` fallback of `Echo.UserSession.any`: false when no identity
is resolved, else true iff for some candidate value the stored value
(read with an empty-object default) string-equals it, or is an array
strictly containing it. -/
def anyFallback (u : UserObj) (key : String) (values : List JSVal) : Bool :=
  match u.identity with
  | none => false
  | some _ =>
    values.any (fun v =>
      let data := (getD u key (.obj [])).getD .undefined
      (isStr data && looseEq data v) || (isArr data && (asArray data).any (fun x => strictEq x v)))

/-- `Echo.UserSession.any` through `_maybeDelegate`: `_anyMarker` and
`_anyRole` redirect to the keys "markers"/"roles" (whose capitalized
names have no handler, so the recursion lands in the fallback), every
other key goes to the fallback directly. -/
def anyD (u : UserObj) (key : String) (values : List JSVal) : Bool :=
  let name := capitalize key
  if name = "Marker" then anyFallback u "markers" values
  else if name = "Role" then anyFallback u "roles" values
  else anyFallback u key values

/-- `Echo.UserSession._hasIdentity`: scans `user.data.identities` for a
record with a truthy `identityUrl` loosely equal to the argument.  The
dispatcher passes the whole `arg` array (`[value]`) as the parameter. -/
def hasIdentity (u : UserObj) (identityUrlArg : JSVal) : Bool :=
  (asArray u.dataIdentities).any (fun idn =>
    truthy (jsGetV idn "identityUrl") && looseEq (jsGetV idn "identityUrl") identityUrlArg)

/-- `Echo.UserSession.has` through `_maybeDelegate`: the key "identity"
(capitalized "Identity") hits `_hasIdentity`, called with the one-element
`arg` array; every other key falls back to `any(key, [value])`. -/
def hasD (u : UserObj) (key : String) (v : JSVal) : Bool :=
  if capitalize key = "Identity" then hasIdentity u (.arr [v])
  else anyD u key [v]

/-
The session state machine (`Echo.UserSession._construct` and friends).
Asynchrony is made explicit: issuing a whoami/logout request appends it
to an in-flight queue, and the arrival of its JSONP response is a
separate event that runs the source callback.  Ready callbacks are
identified by numbers; `fired` records the order in which they run.
The identity payload is abstracted to the single bit the machine
branches on (`logged`, i.e. whether `activeIdentities` is non-empty).
-/

/-- `user.state`: unset (first call), "waiting", or "ready". -/
inductive SState where
  | uninit
  | waiting
  | ready
  deriving Repr, DecidableEq

/-- The configuration object passed to `Echo.UserSession(config)`:
`appkey` is `none` when the field is absent, and the constructor
argument itself is `Option UserConfig` (`none` = falsy config).
`readyCb` identifies the `config.ready` callback. -/
structure UserConfig where
  appkey : Option String
  readyCb : Nat
  deriving Repr, DecidableEq

/-- `!config || !config.appkey` (an empty-string appkey is falsy). -/
def configValid : Option UserConfig → Bool
  | none => false
  | some c =>
    match c.appkey with
    | none => false
    | some k => k ≠ ""

/-- The observable session-machine state. `whoamiQ` holds the in-flight
whoami requests in issue order, each carrying its direct callback
(`none` for the invalidation callback installed by the backplane
listener). -/
structure Sess where
  st : SState
  subscribed : Bool
  onInitQ : List Nat
  whoamiQ : List (Option Nat)
  logoutQ : List Nat
  whoamiIssued : Nat
  logoutIssued : Nat
  fired : List Nat
  invalidates : Nat
  logged : Bool
  deriving Repr, DecidableEq

def Sess.initial : Sess :=
  { st := .uninit, subscribed := false, onInitQ := [], whoamiQ := [], logoutQ := []
    whoamiIssued := 0, logoutIssued := 0, fired := [], invalidates := 0, logged := false }

/-- `Echo.UserSession._onInit`: subscribe the callback to the onInit
topic (it unsubscribes itself when it fires). -/
def onInitSub (s : Sess) (cb : Nat) : Sess :=
  { s with onInitQ := s.onInitQ ++ [cb] }

/-- `Echo.UserSession._listenEvents`: subscribe to the backplane once,
guarded by the stored subscription id. -/
def listenEvents (s : Sess) : Sess :=
  if s.subscribed then s else { s with subscribed := true }

/-- `Echo.UserSession._init` up to the network call: set state to
"waiting" and issue the whoami request, remembering its direct
callback. -/
def initReq (s : Sess) (cb : Option Nat) : Sess :=
  { s with st := .waiting
           whoamiQ := s.whoamiQ ++ [cb]
           whoamiIssued := s.whoamiIssued + 1 }

/-- `Echo.UserSession._construct`; the Bool is whether the singleton
(rather than undefined) is returned. -/
def construct (cfg : Option UserConfig) (s : Sess) : Bool × Sess :=
  match cfg with
  | none => (false, s)
  | some c =>
    match c.appkey with
    | none => (false, s)
    | some k =>
      if k = "" then (false, s)
      else
        match s.st with
        | .waiting => (true, onInitSub s c.readyCb)
        | .ready => (true, { s with fired := s.fired ++ [c.readyCb] })
        | .uninit => (true, initReq (listenEvents s) (some c.readyCb))

/-- Arrival of the (oldest) in-flight whoami response: the `_init`
response handler sets state to "ready", resets the store from the
payload, publishes onInit — firing the queued handlers in subscription
order, each unsubscribing itself — and then runs the direct callback
(for the backplane-triggered `_init`, the direct callback publishes
onInvalidate instead). -/
def whoamiResp (respLogged : Bool) (s : Sess) : Sess :=
  match s.whoamiQ with
  | [] => s
  | cb :: rest =>
    let s1 := { s with whoamiQ := rest, st := SState.ready, logged := respLogged
                       onInitQ := [], fired := s.fired ++ s.onInitQ }
    match cb with
    | some c => { s1 with fired := s1.fired ++ [c] }
    | none => { s1 with invalidates := s1.invalidates + 1 }

/-- Delivery of a cross-tab "identity/ack" backplane message: the
`_listenEvents` handler calls `_init` unconditionally (no branch on
`user.state`). -/
def identityAck (s : Sess) : Sess :=
  if s.subscribed then initReq s none else s

/-- `Echo.UserSession.logout`: when not logged, reset synchronously and
run the callback; otherwise issue the logout request. -/
def logoutCall (cb : Nat) (s : Sess) : Sess :=
  if ¬ s.logged then { s with logged := false, fired := s.fired ++ [cb] }
  else { s with logoutQ := s.logoutQ ++ [cb], logoutIssued := s.logoutIssued + 1 }

/-- Arrival of the logout response: queue the callback on onInit via
`_onInit` and expect the identity/ack message. -/
def logoutResp (s : Sess) : Sess :=
  match s.logoutQ with
  | [] => s
  | cb :: rest => { s with logoutQ := rest, onInitQ := s.onInitQ ++ [cb] }

/-- External stimuli of the session machinery. -/
inductive SEvent where
  | construct (cfg : Option UserConfig)
  | whoami (respLogged : Bool)
  | ack
  | logout (cb : Nat)
  | logoutDone
  deriving Repr, DecidableEq

def sessStep (s : Sess) : SEvent → Sess
  | .construct cfg => (construct cfg s).2
  | .whoami l => whoamiResp l s
  | .ack => identityAck s
  | .logout cb => logoutCall cb s
  | .logoutDone => logoutResp s

def sessRun (s : Sess) (es : List SEvent) : Sess := es.foldl sessStep s

/-- Reachability under schedules in which no identity/ack message is
delivered while the session state is "waiting". -/
inductive ReachNA : Sess → Prop where
  | init : ReachNA Sess.initial
  | step (s : Sess) (e : SEvent) (h : ReachNA s)
      (hack : e = SEvent.ack → s.st ≠ SState.waiting) : ReachNA (sessStep s e)

/-
The Canvas bootstrap pipeline (`Echo.Canvas`).  Network responses and
script downloads are supplied through a `CanvasEnv`; `canvasInit` runs
the whole `canvas.init` flow — double-init guard, id/appkey validation,
`_fetchConfig`, `_initBackplane`, `_initUser`, `_loadAppResources`,
and the container renderer invoking `_initApp` per descriptor — and
returns everything the claims observe.
-/

/-- One app descriptor of a canvas configuration.  Each field is `none`
when it is absent or falsy (the source only ever tests truthiness). -/
structure AppDescriptor where
  component : Option String
  script : Option String
  scriptsDev : Option String
  scriptsProd : Option String
  caption : Option String
  id : Option String
  deriving Repr, DecidableEq

/-- The canvas configuration document (`data`); only the app list is
consumed by the modelled pipeline. -/
structure CanvasData where
  apps : List AppDescriptor
  deriving Repr, DecidableEq

/-- One `_error` report: its code and whether it is render-worthy. -/
structure ErrReport where
  code : String
  renderError : Bool
  deriving Repr, DecidableEq

/-- One live entry of the app instance registry (`this.apps`). -/
structure AppInstance where
  component : String
  id : String
  deriving Repr, DecidableEq

/-- Environment of one `canvas.init` run: the container marker, the
id/appkey truthiness after target-attribute overrides, the manually
supplied `data` (`none` = the default empty object), the config-storage
response, the debug flag, whether a user object is already configured,
the components already defined, and which component each script URL
defines once downloaded. -/
structure CanvasEnv where
  markerAlready : Bool
  hasId : Bool
  hasAppkey : Bool
  manualData : Option CanvasData
  storage : Except Unit CanvasData
  debug : Bool
  userAlready : Bool
  defined : List String
  scriptDefines : List (String × String)
  deriving Repr

/-- Observable outcome of one `canvas.init` run. -/
structure CanvasResult where
  errors : List ErrReport
  storageFetches : Nat
  backplaneInits : Nat
  userInits : Nat
  marker : Bool
  dataSet : Option CanvasData
  apps : List AppInstance
  completed : Bool
  deriving Repr, DecidableEq

/-- `canvas.methods._getAppScriptURL`: the dev/prod pair wins when both
members are (truthily) present, selected by the debug flag; otherwise
the single `script` field. -/
def getAppScriptURL (debug : Bool) (a : AppDescriptor) : Option String :=
  match a.scriptsDev, a.scriptsProd with
  | some d, some p => some (if debug then d else p)
  | _, _ => a.script

/-- The per-descriptor validation of `_loadAppResources`:
`!app.component || !script || !(isManual || app.id)` negated. -/
def descriptorValid (isManual debug : Bool) (a : AppDescriptor) : Bool :=
  a.component.isSome && (getAppScriptURL debug a).isSome && (isManual || a.id.isSome)

/-- `canvas.methods._loadAppResources`: per-descriptor errors (in array
order) and the script URLs queued for download. -/
def loadAppResources (isManual debug : Bool) (apps : List AppDescriptor) :
    List ErrReport × List String :=
  apps.foldl
    (fun acc a =>
      if descriptorValid isManual debug a then
        (acc.1, acc.2 ++ (getAppScriptURL debug a).toList)
      else
        (acc.1 ++ [⟨"incomplete_app_config", false⟩], acc.2))
    ([], [])

/-- Components defined after `Echo.Loader.download` has fetched the
queued scripts (each downloaded script defines its component per
`scriptDefines`). -/
def downloadDefines (scriptDefines : List (String × String)) (urls : List String)
    (defined : List String) : List String :=
  defined ++ urls.filterMap (fun u => (scriptDefines.find? (fun p => p.1 = u)).map (fun p => p.2))

/-- `canvas.methods._initApp` for the descriptor at array position
`idx`: error when no implementation is registered under the component
identifier, otherwise instantiate with `app.id || idx`. -/
def initApp (defined : List String) (a : AppDescriptor) (idx : Nat) :
    Option AppInstance × List ErrReport :=
  match a.component with
  | some comp =>
    if defined.contains comp then
      (some { component := comp, id := a.id.getD (toString idx) }, [])
    else (none, [⟨"no_suitable_app_class", false⟩])
  | none => (none, [⟨"no_suitable_app_class", false⟩])

/-- `canvas.renderers.container`: `_initApp` over all of `data.apps`
with the positional index; instances are pushed in instantiation
order. -/
def renderContainer (defined : List String) (apps : List AppDescriptor) :
    List AppInstance × List ErrReport :=
  apps.enum.foldl
    (fun acc p =>
      match initApp defined p.2 p.1 with
      | (some inst, errs) => (acc.1 ++ [inst], acc.2 ++ errs)
      | (none, errs) => (acc.1, acc.2 ++ errs))
    ([], [])

/-- `canvas.methods._isManuallyConfigured`: `data` is a non-empty
object. -/
def isManuallyConfigured (dataVal : Option CanvasData) : Bool := dataVal.isSome

/-- `canvas.methods._fetchConfig`: serve manual data without a network
round trip; otherwise one storage request which either yields the
config or reports `unable_to_retrieve_app_config` and invokes the
callback with no argument. -/
def fetchConfig (env : CanvasEnv) : List ErrReport × Nat × Option CanvasData :=
  match env.manualData with
  | some d => ([], 0, some d)
  | none =>
    match env.storage with
    | .ok d => ([], 1, some d)
    | .error _ => ([⟨"unable_to_retrieve_app_config", false⟩], 1, none)

/-- `canvas.init` end to end.  Note that by the time
`_loadAppResources` reads `_isManuallyConfigured`, `data` has been set
to the (non-empty) resolved config, so the manual flag it sees is
true on every completing run. -/
def canvasInit (env : CanvasEnv) : CanvasResult :=
  if env.markerAlready then
    { errors := [⟨"canvas_already_initialized", false⟩], storageFetches := 0
      backplaneInits := 0, userInits := 0, marker := true, dataSet := none
      apps := [], completed := false }
  else if ¬ isManuallyConfigured env.manualData ∧ ¬ (env.hasId ∧ env.hasAppkey) then
    { errors := [⟨"invalid_canvas_config", false⟩], storageFetches := 0
      backplaneInits := 0, userInits := 0, marker := false, dataSet := none
      apps := [], completed := false }
  else
    let fetched := fetchConfig env
    match fetched.2.2 with
    | none =>
      { errors := fetched.1 ++ [⟨"invalid_canvas_config", true⟩]
        storageFetches := fetched.2.1, backplaneInits := 0, userInits := 0
        marker := true, dataSet := none, apps := [], completed := false }
    | some d =>
      if d.apps.isEmpty then
        { errors := fetched.1 ++ [⟨"invalid_canvas_config", true⟩]
          storageFetches := fetched.2.1, backplaneInits := 0, userInits := 0
          marker := true, dataSet := none, apps := [], completed := false }
      else
        let isManual := isManuallyConfigured (some d)
        let loaded := loadAppResources isManual env.debug d.apps
        let definedAfter := downloadDefines env.scriptDefines loaded.2 env.defined
        let rendered := renderContainer definedAfter d.apps
        { errors := fetched.1 ++ loaded.1 ++ rendered.2
          storageFetches := fetched.2.1, backplaneInits := 1
          userInits := if env.userAlready ∨ ¬ env.hasAppkey then 0 else 1
          marker := true, dataSet := some d, apps := rendered.1, completed := true }

/-
Canvas teardown.  `canvas.destroy` (the manifest handler under src/)
destroys every truthy registry entry and clears the container marker;
the registry entries are identified by numbers and `destroyLog` records
the destroy invocations in order.
-/

/-- A live canvas instance as teardown sees it. -/
structure CanvasInstance where
  apps : List (Option Nat)
  marker : Bool
  destroyLog : List Nat
  deriving Repr, DecidableEq

/-- `canvas.methods._destroyApp`: a no-op on a falsy entry. -/
def destroyApp (log : List Nat) (a : Option Nat) : List Nat :=
  match a with
  | some i => log ++ [i]
  | none => log

/-- `canvas.destroy` (the manifest handler): destroy each registry
entry in order and clear the container marker.  It does not itself
empty `this.apps`. -/
def canvasDestroy (c : CanvasInstance) : CanvasInstance :=
  { c with destroyLog := c.apps.foldl destroyApp c.destroyLog, marker := false }

/-- Modelled from the spec: the base-class teardown (`Echo.Control`
destroy machinery, not under src/) that runs when a Canvas instance is
destroyed invokes the manifest destroy handler and clears the
instance variables, leaving the app registry empty. -/
def controlDestroy (c : CanvasInstance) : CanvasInstance :=
  { canvasDestroy c with apps := [] }

/- Helper lemmas. -/

lemma sessRun_append (s : Sess) (l1 l2 : List SEvent) :
    sessRun s (l1 ++ l2) = sessRun (sessRun s l1) l2 := by
  simp [sessRun, List.foldl_append]

lemma sessRun_construct_waiting (k : String) (cs : List Nat) (s : Sess)
    (hk : k ≠ "") (hst : s.st = SState.waiting) :
    sessRun s (cs.map (fun c => SEvent.construct (some ⟨some k, c⟩))) =
      { s with onInitQ := s.onInitQ ++ cs } := by
  induction cs generalizing s with
  | nil => simp [sessRun]
  | cons c cs ih =>
    have hstep : sessStep s (SEvent.construct (some ⟨some k, c⟩)) = onInitSub s c := by
      simp [sessStep, construct, hk, hst]
    rw [List.map_cons]
    have hcons : sessRun s (SEvent.construct (some ⟨some k, c⟩) ::
        cs.map (fun c => SEvent.construct (some ⟨some k, c⟩))) =
        sessRun (sessStep s (SEvent.construct (some ⟨some k, c⟩)))
          (cs.map (fun c => SEvent.construct (some ⟨some k, c⟩))) := by
      simp [sessRun]
    rw [hcons, hstep, ih (onInitSub s c) (by simp [onInitSub, hst])]
    simp [onInitSub]

lemma listenEvents_whoamiQ (s : Sess) : (listenEvents s).whoamiQ = s.whoamiQ := by
  unfold listenEvents; split <;> rfl

lemma listenEvents_st (s : Sess) : (listenEvents s).st = s.st := by
  unfold listenEvents; split <;> rfl

lemma reachNA_inv (s : Sess) (h : ReachNA s) :
    s.whoamiQ.length = (if s.st = SState.waiting then 1 else 0) := by
  induction h with
  | init => simp [Sess.initial]
  | step s e h hack ih =>
    cases e with
    | construct cfg =>
      cases cfg with
      | none => simpa [sessStep, construct] using ih
      | some c =>
        cases hc : c.appkey with
        | none => simpa [sessStep, construct, hc] using ih
        | some k =>
          by_cases hk : k = ""
          · simpa [sessStep, construct, hc, hk] using ih
          · cases hst : s.st with
            | waiting =>
              simp [sessStep, construct, hc, hk, hst, onInitSub]
              simpa [hst] using ih
            | ready =>
              simp [sessStep, construct, hc, hk, hst]
              simpa [hst] using ih
            | uninit =>
              have hq : s.whoamiQ = [] := by
                rw [hst] at ih; simpa using ih
              simp [sessStep, construct, hc, hk, hst, initReq,
                    listenEvents_whoamiQ, hq]
    | whoami l =>
      cases hq : s.whoamiQ with
      | nil => simpa [sessStep, whoamiResp, hq] using ih
      | cons cb rest =>
        have hrest : rest = [] := by
          rw [hq] at ih
          by_cases hst : s.st = SState.waiting
          · rw [if_pos hst] at ih
            simpa using List.length_eq_zero.mp (by simpa using ih)
          · rw [if_neg hst] at ih; simp at ih
        subst hrest
        cases cb <;> simp [sessStep, whoamiResp, hq]
    | ack =>
      by_cases hs : s.subscribed
      · have hst : s.st ≠ SState.waiting := hack rfl
        have hq : s.whoamiQ = [] := by
          rw [if_neg hst] at ih
          exact List.length_eq_zero.mp ih
        simp [sessStep, identityAck, hs, initReq, hq]
      · simpa [sessStep, identityAck, hs] using ih
    | logout cb =>
      by_cases hl : s.logged
      · simpa [sessStep, logoutCall, hl] using ih
      · simpa [sessStep, logoutCall, hl] using ih
    | logoutDone =>
      cases hq : s.logoutQ with
      | nil => simpa [sessStep, logoutResp, hq] using ih
      | cons cb rest => simpa [sessStep, logoutResp, hq] using ih

lemma destroyApp_foldl (apps : List (Option Nat)) (log : List Nat) :
    apps.foldl destroyApp log = log ++ apps.filterMap id := by
  induction apps generalizing log with
  | nil => simp
  | cons a as ih =>
    cases a with
    | none => simp [destroyApp, ih]
    | some i => simp [destroyApp, ih]

/- Claim theorems. -/

/-- C1: a first `Echo.UserSession` call with a valid appkey starts the
resolution (one whoami request, direct callback d); every further call
made while the state is "waiting" (N = |cs| >= 1 of them) issues no
further request and queues its ready callback; nothing fires before the
response arrives, and on arrival the queued callbacks fire exactly once
in subscription order followed by the direct callback of the starting
call, with exactly one request issued over the whole resolution. -/
theorem userSession_waiting_queue (k : String) (d : Nat) (cs : List Nat) (l : Bool)
    (hk : k ≠ "") (hN : cs ≠ []) :
    sessRun Sess.initial
        ([SEvent.construct (some ⟨some k, d⟩)]
          ++ cs.map (fun c => SEvent.construct (some ⟨some k, c⟩)) ++ [SEvent.whoami l]) =
      { st := SState.ready, subscribed := true, onInitQ := [], whoamiQ := [], logoutQ := []
        whoamiIssued := 1, logoutIssued := 0, fired := cs ++ [d], invalidates := 0, logged := l } ∧
    (sessRun Sess.initial
        ([SEvent.construct (some ⟨some k, d⟩)]
          ++ cs.map (fun c => SEvent.construct (some ⟨some k, c⟩)))).fired = [] := by
  have h1 : sessRun Sess.initial [SEvent.construct (some ⟨some k, d⟩)] =
      { st := SState.waiting, subscribed := true, onInitQ := [], whoamiQ := [some d]
        logoutQ := [], whoamiIssued := 1, logoutIssued := 0, fired := []
        invalidates := 0, logged := false } := by
    simp [sessRun, sessStep, construct, hk, initReq, listenEvents, Sess.initial]
  have h2 : sessRun Sess.initial
      ([SEvent.construct (some ⟨some k, d⟩)]
        ++ cs.map (fun c => SEvent.construct (some ⟨some k, c⟩))) =
      { st := SState.waiting, subscribed := true, onInitQ := cs, whoamiQ := [some d]
        logoutQ := [], whoamiIssued := 1, logoutIssued := 0, fired := []
        invalidates := 0, logged := false } := by
    rw [sessRun_append, h1, sessRun_construct_waiting k cs _ hk rfl]
    simp
  refine ⟨?_, by rw [h2]⟩
  rw [sessRun_append, h2]
  simp [sessRun, sessStep, whoamiResp]

/-- Witness for C1 at a concrete run: starter callback 100, three
queued callbacks 1, 2, 3. -/
theorem userSession_waiting_queue_witness :
    (sessRun Sess.initial
        ([SEvent.construct (some ⟨some "key", 100⟩)]
          ++ [1, 2, 3].map (fun c => SEvent.construct (some ⟨some "key", c⟩))
          ++ [SEvent.whoami true])).fired = [1, 2, 3, 100] ∧
    (sessRun Sess.initial
        ([SEvent.construct (some ⟨some "key", 100⟩)]
          ++ [1, 2, 3].map (fun c => SEvent.construct (some ⟨some "key", c⟩))
          ++ [SEvent.whoami true])).whoamiIssued = 1 := by
  have h := userSession_waiting_queue "key" 100 [1, 2, 3] true (by decide) (by decide)
  exact ⟨by rw [h.1]; rfl, by rw [h.1]⟩

/-- C2 counterexample: a cross-tab identity/ack message delivered while
the state is "waiting" makes the backplane listener call `_init`
unconditionally, so a second whoami request is issued while the first
is still in flight: after [construct, ack] two requests are in flight
and two have been issued, refuting the at-most-one-in-flight claim. -/
theorem userSession_inflight_counterexample :
    (sessRun Sess.initial [SEvent.construct (some ⟨some "key", 0⟩), SEvent.ack]).whoamiQ.length = 2 ∧
    (sessRun Sess.initial [SEvent.construct (some ⟨some "key", 0⟩), SEvent.ack]).whoamiIssued = 2 ∧
    (sessRun Sess.initial [SEvent.construct (some ⟨some "key", 0⟩), SEvent.ack]).st = SState.waiting := by
  exact ⟨rfl, rfl, rfl⟩

/-- C2 amended: along every execution in which no identity/ack message
is delivered while the state is "waiting" (all constructor calls,
responses, logouts and acks-at-ready allowed), at most one
identity-resolution request is in flight at every reachable point. -/
theorem userSession_single_inflight (s : Sess) (h : ReachNA s) :
    s.whoamiQ.length ≤ 1 := by
  have hinv := reachNA_inv s h
  rw [hinv]
  split <;> omega

/-- Witness for C2 amended at a concrete reachable state. -/
theorem userSession_single_inflight_witness :
    (sessStep Sess.initial (SEvent.construct (some ⟨some "key", 0⟩))).whoamiQ.length ≤ 1 :=
  userSession_single_inflight _
    (ReachNA.step Sess.initial _ ReachNA.init (fun hc => nomatch hc))

/-- C3: the store holds the present value null at key "k" (location:
the active-identity bucket), yet `get("k", 42)` returns the default 42,
because the fallback tests `value == undefined` with loose equality,
which null satisfies.  This contradicts the claim and the code's own
doc comment ("The false, null, 0, [] are considered as a proper
value"); for contrast, present false, 0 and [] are returned
unchanged. -/
theorem userSession_get_null_default :
    jsGet [("k", JSVal.null)] "k" = JSVal.null ∧
    getD ⟨[], .obj [], .arr [], some [("k", JSVal.null)], .undefined⟩ "k" (.num 42) = some (.num 42) ∧
    getD ⟨[], .obj [], .arr [], some [("k", JSVal.bool false)], .undefined⟩ "k" (.num 42) = some (.bool false) ∧
    getD ⟨[], .obj [], .arr [], some [("k", JSVal.num 0)], .undefined⟩ "k" (.num 42) = some (.num 0) ∧
    getD ⟨[], .obj [], .arr [], some [("k", JSVal.arr [])], .undefined⟩ "k" (.num 42) = some (.arr []) ∧
    getD ⟨[], .obj [], .arr [], some [], .undefined⟩ "k" (.num 42) = some (.num 42) := by
  exact ⟨rfl, rfl, rfl, rfl, rfl, rfl⟩

/-- C4 counterexample: for the key "identity" the dispatcher hits the
specialized `_hasIdentity` handler, which scans `user.data.identities`
by identityUrl, while `any` falls back to reading the field "identity"
off the active-identity record — so `has("identity", "u")` is true and
`any("identity", ["u"])` is false on a store whose identities list
holds a record with identityUrl "u". -/
theorem userSession_has_identity_counterexample :
    hasD ⟨[], .obj [], .arr [.obj [("identityUrl", .str "u")]], some [], .undefined⟩ "identity" (.str "u") = true ∧
    anyD ⟨[], .obj [], .arr [.obj [("identityUrl", .str "u")]], some [], .undefined⟩ "identity" [.str "u"] = false := by
  exact ⟨rfl, rfl⟩

/-- C4 amended: for every key whose capitalized name is not "Identity"
(i.e. every key without a specialized has-handler), `has(key, v)`
coincides with `any(key, [v])`, the fallback delegation. -/
theorem userSession_has_delegates_any (u : UserObj) (key : String) (v : JSVal)
    (h : capitalize key ≠ "Identity") : hasD u key v = anyD u key [v] := by
  simp [hasD, h]

/-- Witness for C4 amended at key "roles". -/
theorem userSession_has_delegates_any_witness :
    hasD ⟨[("roles", .arr [.str "x"])], .obj [], .arr [], some [], .undefined⟩ "roles" (.str "x") =
      anyD ⟨[("roles", .arr [.str "x"])], .obj [], .arr [], some [], .undefined⟩ "roles" [.str "x"] :=
  userSession_has_delegates_any _ "roles" (.str "x") (by decide)

/-- C5: full teardown of a Canvas instance invokes the destroy method
of every live registry entry exactly once, in registry order (falsy
entries are skipped by `_destroyApp`), leaves the registry empty, and
clears the container's initialization marker. -/
theorem canvas_destroy_teardown (c : CanvasInstance) :
    (controlDestroy c).destroyLog = c.destroyLog ++ c.apps.filterMap id ∧
    (controlDestroy c).apps = [] ∧
    (controlDestroy c).marker = false := by
  refine ⟨?_, rfl, rfl⟩
  simp [controlDestroy, canvasDestroy, destroyApp_foldl]

/-- C6 counterexample: a failing config-storage request produces TWO
error reports, not one — first `unable_to_retrieve_app_config` (from
the request error handler), then a render-worthy
`invalid_canvas_config` (because the error handler still invokes the
init callback with no config). -/
theorem canvas_config_error_counterexample :
    (canvasInit ⟨false, true, true, none, .error (), false, false, [], []⟩).errors =
      [⟨"unable_to_retrieve_app_config", false⟩, ⟨"invalid_canvas_config", true⟩] ∧
    (canvasInit ⟨false, true, true, none, .error (), false, false, [], []⟩).errors.length = 2 ∧
    (canvasInit ⟨false, true, true, none, .error (), false, false, [], []⟩).apps = [] := by
  exact ⟨rfl, rfl, rfl⟩

/-- C6 amended: when the Stage-1 storage request fails (and the canvas
passed the id/appkey guard, not being manually configured), the
pipeline halts before creating any app instance, touching the
backplane or the user session; the failure is reported first with code
`unable_to_retrieve_app_config`, followed by one render-worthy
`invalid_canvas_config` report caused by the error handler invoking
the init callback without a config. -/
theorem canvas_config_error_reports (env : CanvasEnv)
    (hm : env.markerAlready = false) (hd : env.manualData = none)
    (hid : env.hasId = true) (hak : env.hasAppkey = true)
    (hs : env.storage = .error ()) :
    canvasInit env =
      { errors := [⟨"unable_to_retrieve_app_config", false⟩, ⟨"invalid_canvas_config", true⟩]
        storageFetches := 1, backplaneInits := 0, userInits := 0, marker := true
        dataSet := none, apps := [], completed := false } := by
  simp [canvasInit, fetchConfig, isManuallyConfigured, hm, hd, hid, hak, hs]

/-- Witness for C6 amended at a concrete environment. -/
theorem canvas_config_error_reports_witness :
    canvasInit ⟨false, true, true, none, .error (), true, false, [], []⟩ =
      { errors := [⟨"unable_to_retrieve_app_config", false⟩, ⟨"invalid_canvas_config", true⟩]
        storageFetches := 1, backplaneInits := 0, userInits := 0, marker := true
        dataSet := none, apps := [], completed := false } :=
  canvas_config_error_reports _ rfl rfl rfl rfl rfl

/-- Mirror of C7's validation sentence as written: id derivable
explicitly, or positionally when the canvas is NOT manually
configured. -/
def claimC7Valid (isManual debug : Bool) (a : AppDescriptor) : Bool :=
  a.component.isSome && (getAppScriptURL debug a).isSome && (a.id.isSome || !isManual)

/-- C7's validation sentence amended: positional ids are accepted when
the canvas IS manually configured (the code tests `isManual ||
app.id`). -/
def claimC7ValidAmended (isManual debug : Bool) (a : AppDescriptor) : Bool :=
  a.component.isSome && (getAppScriptURL debug a).isSome && (a.id.isSome || isManual)

/-- C7 counterexample: a descriptor with component and script but no
explicit id, on a non-manually-configured canvas, is rejected by the
code but accepted by the claim's id condition. -/
theorem canvas_descriptor_validation_counterexample :
    descriptorValid false false ⟨some "C", some "u", none, none, none, none⟩ = false ∧
    claimC7Valid false false ⟨some "C", some "u", none, none, none, none⟩ = true := by
  exact ⟨rfl, rfl⟩

/-- C7 amended: the chosen script URL is the dev/prod member (selected
by the debug flag) when both are present and the single script field
otherwise, and a descriptor passes validation iff its component is
present, the chosen script URL resolves, and an id is derivable —
explicit, or positional when the canvas IS manually configured. -/
theorem canvas_descriptor_validation (isManual debug : Bool) (a : AppDescriptor) :
    descriptorValid isManual debug a = claimC7ValidAmended isManual debug a ∧
    (∀ d p, a.scriptsDev = some d → a.scriptsProd = some p →
      getAppScriptURL debug a = some (if debug then d else p)) ∧
    (a.scriptsDev = none ∨ a.scriptsProd = none → getAppScriptURL debug a = a.script) := by
  refine ⟨?_, ?_, ?_⟩
  · simp [descriptorValid, claimC7ValidAmended, Bool.or_comm]
  · intro d p hd hp
    simp [getAppScriptURL, hd, hp]
  · intro h
    cases hdev : a.scriptsDev <;> cases hprod : a.scriptsProd <;>
      simp_all [getAppScriptURL]

/-- Witness for C7 amended, covering both script-choice branches. -/
theorem canvas_descriptor_validation_witness :
    descriptorValid true false ⟨some "C", some "u", none, none, none, none⟩ =
      claimC7ValidAmended true false ⟨some "C", some "u", none, none, none, none⟩ ∧
    getAppScriptURL false ⟨some "C", some "u", none, none, none, none⟩ = some "u" ∧
    getAppScriptURL true ⟨some "C", none, some "du", some "pu", none, some "i"⟩ = some "du" :=
  ⟨(canvas_descriptor_validation true false _).1,
   (canvas_descriptor_validation true false _).2.2 (Or.inl rfl),
   (canvas_descriptor_validation true true _).2.1 "du" "pu" rfl rfl⟩

/-- C8 counterexample: on a three-descriptor canvas whose middle
descriptor lacks a resolvable script URL, the registry does end with 2
entries, but the invalid descriptor is reported TWICE — once with
`incomplete_app_config` at Stage 4 and once with
`no_suitable_app_class` at Stage 5 (the renderer iterates all
descriptors and the skipped one's component was never loaded) — not
exactly once. -/
theorem canvas_partial_failure_counterexample :
    (canvasInit ⟨false, false, true,
        some ⟨[⟨some "CompA", some "ua", none, none, none, some "a"⟩,
               ⟨some "CompB", none, none, none, none, some "b"⟩,
               ⟨some "CompC", some "uc", none, none, none, some "c"⟩]⟩,
        .error (), false, false, [], [("ua", "CompA"), ("uc", "CompC")]⟩).apps =
      [⟨"CompA", "a"⟩, ⟨"CompC", "c"⟩] ∧
    (canvasInit ⟨false, false, true,
        some ⟨[⟨some "CompA", some "ua", none, none, none, some "a"⟩,
               ⟨some "CompB", none, none, none, none, some "b"⟩,
               ⟨some "CompC", some "uc", none, none, none, some "c"⟩]⟩,
        .error (), false, false, [], [("ua", "CompA"), ("uc", "CompC")]⟩).errors =
      [⟨"incomplete_app_config", false⟩, ⟨"no_suitable_app_class", false⟩] := by
  exact ⟨rfl, rfl⟩

/-- C8 amended: for any three-descriptor manually-supplied canvas whose
middle descriptor has a component but no resolvable script URL (its
component being defined by no downloaded script) while the two siblings
are valid and their scripts define their components, the pipeline
completes, instantiates the two siblings in order, ends with a
two-entry registry, and reports the invalid descriptor twice —
`incomplete_app_config` at Stage 4 and `no_suitable_app_class` at
Stage 5. -/
theorem canvas_partial_failure_isolated (ca cb cc ua uc ia ib ic : String)
    (hu : ua ≠ uc) (hba : cb ≠ ca) (hbc : cb ≠ cc) :
    canvasInit ⟨false, false, true,
        some ⟨[⟨some ca, some ua, none, none, none, some ia⟩,
               ⟨some cb, none, none, none, none, some ib⟩,
               ⟨some cc, some uc, none, none, none, some ic⟩]⟩,
        .error (), false, false, [], [(ua, ca), (uc, cc)]⟩ =
      { errors := [⟨"incomplete_app_config", false⟩, ⟨"no_suitable_app_class", false⟩]
        storageFetches := 0, backplaneInits := 1, userInits := 1, marker := true
        dataSet := some ⟨[⟨some ca, some ua, none, none, none, some ia⟩,
                          ⟨some cb, none, none, none, none, some ib⟩,
                          ⟨some cc, some uc, none, none, none, some ic⟩]⟩
        apps := [⟨ca, ia⟩, ⟨cc, ic⟩], completed := true } := by
  simp [canvasInit, fetchConfig, isManuallyConfigured, loadAppResources, descriptorValid,
        getAppScriptURL, downloadDefines, renderContainer, initApp, List.enum,
        List.find?, List.contains, hu, hba, hbc]

/-- Witness for C8 amended at concrete names. -/
theorem canvas_partial_failure_isolated_witness :
    canvasInit ⟨false, false, true,
        some ⟨[⟨some "A", some "sa", none, none, none, some "1"⟩,
               ⟨some "B", none, none, none, none, some "2"⟩,
               ⟨some "C", some "sc", none, none, none, some "3"⟩]⟩,
        .error (), false, false, [], [("sa", "A"), ("sc", "C")]⟩ =
      { errors := [⟨"incomplete_app_config", false⟩, ⟨"no_suitable_app_class", false⟩]
        storageFetches := 0, backplaneInits := 1, userInits := 1, marker := true
        dataSet := some ⟨[⟨some "A", some "sa", none, none, none, some "1"⟩,
                          ⟨some "B", none, none, none, none, some "2"⟩,
                          ⟨some "C", some "sc", none, none, none, some "3"⟩]⟩
        apps := [⟨"A", "1"⟩, ⟨"C", "3"⟩], completed := true } :=
  canvas_partial_failure_isolated "A" "B" "C" "sa" "sc" "1" "2" "3"
    (by decide) (by decide) (by decide)

/-- C9: when the container already carries the initialization marker,
`canvas.init` reports `canvas_already_initialized` and nothing else: no
storage fetch, no backplane init, no user-session init, no data stored,
no instance created, marker untouched. -/
theorem canvas_double_init_guard (env : CanvasEnv) (h : env.markerAlready = true) :
    canvasInit env =
      { errors := [⟨"canvas_already_initialized", false⟩], storageFetches := 0
        backplaneInits := 0, userInits := 0, marker := true, dataSet := none
        apps := [], completed := false } := by
  simp [canvasInit, h]

/-- Witness for C9 at a concrete environment. -/
theorem canvas_double_init_guard_witness :
    canvasInit ⟨true, true, true, none, .error (), false, false, [], []⟩ =
      { errors := [⟨"canvas_already_initialized", false⟩], storageFetches := 0
        backplaneInits := 0, userInits := 0, marker := true, dataSet := none
        apps := [], completed := false } :=
  canvas_double_init_guard _ rfl

/-- C10: calling `Echo.UserSession(config)` with a falsy config or a
config whose appkey is absent or falsy returns undefined (modelled as
the `false` component) and leaves the entire session state untouched:
no request is issued, no subscription is made, no state field changes
and no callback fires. -/
theorem userSession_invalid_config_noop (cfg : Option UserConfig) (s : Sess)
    (h : configValid cfg = false) : construct cfg s = (false, s) := by
  match cfg with
  | none => rfl
  | some c =>
    match hc : c.appkey with
    | none => simp [construct, hc]
    | some k =>
      rw [configValid] at h
      simp only [hc] at h
      simp only [decide_eq_false_iff_not, not_not] at h
      simp [construct, hc, h]

/-- Witness for C10: the falsy config and the empty-appkey config both
leave the initial state untouched. -/
theorem userSession_invalid_config_noop_witness :
    construct none Sess.initial = (false, Sess.initial) ∧
    construct (some ⟨some "", 5⟩) Sess.initial = (false, Sess.initial) :=
  ⟨userSession_invalid_config_noop none Sess.initial rfl,
   userSession_invalid_config_noop (some ⟨some "", 5⟩) Sess.initial rfl⟩

end EchoSDK
